import Mathlib

/-!
Shallow embedding of the booking system's concurrent-core (seat reservation
store, idempotency coordinator, availability aggregator) from the Go source:
`server/model/types.go`, `server/store/persist.go`,
`server/store/idempotency.go`, `server/handlers/handler.go`,
`server/utils/utils.go`.

Modelling decisions:
- Go `string`-typed enums (`Tier`, `BookingStatus`, `PaymentStatus`) are
  modelled as `String` with the same constants, since the Go code compares
  them as strings and accepts arbitrary string values.
- `uint32` / `uint16` / `uint64` values are `Nat`; where Go arithmetic can
  overflow (the `uint16` multiply in `CalculateAmount`) the wrap is made
  explicit with `% 2 ^ 16`.
- The Go maps (`map[uint32]model.Booking`, `sync.Map`) are association
  lists; Go map iteration order is unspecified, so list order stands in for
  it (no proved property depends on that order).
- `uuid.New()` and `time.Now()` are nondeterministic effects; they are
  modelled by a fresh-counter field `nextID` in the bucket, used for the id
  and both timestamps. No claim depends on their values.
- Mutex acquisition serialises the critical sections; the sequential model
  below is the linearised behaviour: each operation is a pure function from
  the store state to (result, new store state).
-/

namespace BookingSys

/-- `model.Tier` constant `TierVIP` (types.go). -/
def TierVIP : String := "VIP"

/-- `model.Tier` constant `TierFrontRow` (types.go). -/
def TierFrontRow : String := "FRONT_ROW"

/-- `model.Tier` constant `TierGA` (types.go). -/
def TierGA : String := "GA"

/-- `model.BookingStatus` constants (types.go). -/
def BookingStatusPending : String := "PENDING"

def BookingStatusConfirmed : String := "CONFIRMED"

def BookingStatusFailed : String := "FAILED"

def BookingStatusCanceled : String := "CANCELED"

/-- `model.PaymentStatus` constants (types.go). -/
def PaymentStatusPending : String := "PENDING"

def PaymentStatusConfirmed : String := "CONFIRMED"

def PaymentStatusFailed : String := "FAILED"

def PaymentStatusCanceled : String := "CANCELED"

/-- `model.BookingOrder` (types.go): the caller-supplied request payload. -/
structure BookingOrder where
  userID : String
  tier : String
  quantity : Nat
  status : String
  idempotencyKey : String
  country : String
  zipCode : String
  currency : String
  seatNo : Nat
  totalAmtInUSCent : Nat
  paymentID : String
  paymentStatus : String
deriving DecidableEq

/-- `model.Booking` (types.go): the stored record. `id`, `createdAt`,
`updatedAt` model `uuid.New()` / `time.Now()` via the bucket's fresh
counter. -/
structure Booking where
  id : Nat
  userID : String
  tier : String
  status : String
  idempotencyKey : String
  seatNo : Nat
  country : String
  zipCode : String
  currency : String
  totalAmtInUSCent : Nat
  paymentID : String
  paymentStatus : String
  createdAt : Nat
  updatedAt : Nat
deriving DecidableEq

/-- Lookup in the seat map (Go: `b.BOOKING_STORE[seatNo]`). -/
def storeFind (m : List (Nat × Booking)) (k : Nat) : Option Booking :=
  (m.find? (fun p => p.1 = k)).map (fun p => p.2)

/-- `store.BOOKING_STORE_BUCKET` (persist.go). The seat map is an
association list keyed by seat number; `nextID` supplies fresh ids and
timestamps. -/
structure BOOKING_STORE_BUCKET where
  BOOKING_STORE : List (Nat × Booking)
  TOTAL_SEAT : Nat
  nextID : Nat
deriving DecidableEq

/-- `store.NewBookingStoreBucket` (persist.go): empty map, 100 seats. -/
def NewBookingStoreBucket : BOOKING_STORE_BUCKET :=
  { BOOKING_STORE := [], TOTAL_SEAT := 100, nextID := 0 }

/-- The record synthesis inside `RegisterBooking` (persist.go lines
71-101): copy the order's fields, stamp id/timestamps, then apply the two
sequential status-derivation `if`s exactly as written in the Go code. -/
def newBookingOf (b : BOOKING_STORE_BUCKET) (o : BookingOrder) : Booking :=
  let nb0 : Booking :=
    { id := b.nextID
      userID := o.userID
      tier := o.tier
      status := o.status
      idempotencyKey := o.idempotencyKey
      seatNo := o.seatNo
      country := o.country
      zipCode := o.zipCode
      currency := o.currency
      totalAmtInUSCent := o.totalAmtInUSCent
      paymentID := o.paymentID
      paymentStatus := o.paymentStatus
      createdAt := b.nextID
      updatedAt := b.nextID }
  let nb1 : Booking :=
    if 0 < nb0.paymentID.length ∧ nb0.paymentStatus = PaymentStatusConfirmed then
      { nb0 with status := BookingStatusConfirmed }
    else nb0
  if nb1.paymentStatus = PaymentStatusFailed ∨ nb1.paymentStatus = PaymentStatusCanceled then
    { nb1 with status := BookingStatusCanceled }
  else nb1

/-- `RegisterBooking` (persist.go lines 50-106), linearised: validation,
double-booking check, record synthesis with the two status-derivation
`if`s, then insert. Returns the Go `(model.Booking, error)` pair as
`Except String Booking` together with the post state. -/
def RegisterBooking (b : BOOKING_STORE_BUCKET) (o : BookingOrder) :
    Except String Booking × BOOKING_STORE_BUCKET :=
  if o.seatNo = 0 ∨ o.seatNo > b.TOTAL_SEAT then
    (Except.error "invalid seat number", b)
  else
    match storeFind b.BOOKING_STORE o.seatNo with
    | some _ => (Except.error "seat already booked", b)
    | none =>
      let nb2 : Booking := newBookingOf b o
      (Except.ok nb2,
        { b with BOOKING_STORE := (nb2.seatNo, nb2) :: b.BOOKING_STORE,
                 nextID := b.nextID + 1 })

/-- `GetBooking` (persist.go lines 132-138). A pure read: it takes the
bucket and returns only a result, it has no way to modify the store. -/
def GetBooking (b : BOOKING_STORE_BUCKET) (seatNo : Nat) : Except String Booking :=
  match storeFind b.BOOKING_STORE seatNo with
  | none => Except.error "booking not found"
  | some bk => Except.ok bk

/-- Result of `GetReservedSeats`: the Go `map[string][]uint32` with its
three fixed keys "VIP", "FRONT_ROW", "GA". -/
structure ReservedSeats where
  VIP : List Nat
  FRONT_ROW : List Nat
  GA : List Nat
deriving DecidableEq

/-- `GetReservedSeats` (persist.go lines 109-130): sweep the seat map and
classify each entry by exact match on the booking's tier; any other tier
value falls through the `switch` and is dropped. -/
def GetReservedSeats (b : BOOKING_STORE_BUCKET) : ReservedSeats :=
  { VIP := (b.BOOKING_STORE.filter (fun p => p.2.tier = TierVIP)).map (fun p => p.1)
    FRONT_ROW := (b.BOOKING_STORE.filter (fun p => p.2.tier = TierFrontRow)).map (fun p => p.1)
    GA := (b.BOOKING_STORE.filter (fun p => p.2.tier = TierGA)).map (fun p => p.1) }

/-- Lookup in the idempotency map (Go: `IDEMPOTENCY_STORE.Load`). -/
def istoreFind (m : List (String × BookingOrder)) (k : String) : Option BookingOrder :=
  (m.find? (fun p => p.1 = k)).map (fun p => p.2)

/-- Overwriting store (Go: `IDEMPOTENCY_STORE.Store`): replace the entry
for the key if present, else append. -/
def istoreStore (m : List (String × BookingOrder)) (k : String) (v : BookingOrder) :
    List (String × BookingOrder) :=
  match m with
  | [] => [(k, v)]
  | (k', v') :: rest =>
    if k' = k then (k, v) :: rest else (k', v') :: istoreStore rest k v

/-- `store.IDEMPOTENCY_BUCKET` (idempotency.go). -/
structure IDEMPOTENCY_BUCKET where
  IDEMPOTENCY_STORE : List (String × BookingOrder)
deriving DecidableEq

/-- `store.NewIdempotencyBucket` (idempotency.go). -/
def NewIdempotencyBucket : IDEMPOTENCY_BUCKET :=
  { IDEMPOTENCY_STORE := [] }

/-- `HandleIdempotency` (idempotency.go lines 34-60), linearised: if a
record exists for the key and the incoming status is not PENDING,
overwrite the stored record's status with the incoming one and return the
updated record; if the incoming status is PENDING, return the stored
record unchanged; if no record exists, store the incoming order verbatim
and return it. -/
def HandleIdempotency (ib : IDEMPOTENCY_BUCKET) (o : BookingOrder) :
    BookingOrder × IDEMPOTENCY_BUCKET :=
  match istoreFind ib.IDEMPOTENCY_STORE o.idempotencyKey with
  | some stored =>
    if o.status ≠ BookingStatusPending then
      let updated := { stored with status := o.status }
      (updated,
        { IDEMPOTENCY_STORE := istoreStore ib.IDEMPOTENCY_STORE o.idempotencyKey updated })
    else
      (stored, ib)
  | none =>
    (o, { IDEMPOTENCY_STORE := istoreStore ib.IDEMPOTENCY_STORE o.idempotencyKey o })

/-- A `model.TierInfo` row of the availability response (types.go /
handler.go). -/
structure TierInfo where
  tier : String
  price : Nat
  totalSeats : Nat
  reservedCount : Nat
  availableList : List Nat
deriving DecidableEq

/-- The `calculateAvailableSeats` closure in `HandleAvailability`
(handler.go lines 122-134): walk seats `minSeat..maxSeat` in ascending
order, keeping those not in the reserved list. -/
def calculateAvailableSeats (minSeat maxSeat : Nat) (reserved : List Nat) : List Nat :=
  (List.range' minSeat (maxSeat + 1 - minSeat)).filter (fun i => ¬ i ∈ reserved)

/-- `HandleAvailability` (handler.go lines 102-168), the pure core: the
three `TierInfo` rows built from `GetReservedSeats`. Prices are
`model.PriceVIPCents` etc.; seat ranges are the constants in the handler
(VIP 1-30, FRONT_ROW 31-60, GA 61-100). -/
def HandleAvailability (b : BOOKING_STORE_BUCKET) : List TierInfo :=
  let reservedSeats := GetReservedSeats b
  [ { tier := TierVIP
      price := 10000
      totalSeats := 30
      reservedCount := reservedSeats.VIP.length
      availableList := calculateAvailableSeats 1 30 reservedSeats.VIP }
  , { tier := TierFrontRow
      price := 5000
      totalSeats := 30
      reservedCount := reservedSeats.FRONT_ROW.length
      availableList := calculateAvailableSeats 31 60 reservedSeats.FRONT_ROW }
  , { tier := TierGA
      price := 1000
      totalSeats := 40
      reservedCount := reservedSeats.GA.length
      availableList := calculateAvailableSeats 61 100 reservedSeats.GA } ]

/-- Per-seat price table inside `CalculateAmount` (utils.go lines 30-40),
a `uint16` in Go. -/
def pricePerSeat (tier : String) : Nat :=
  if tier = TierVIP then 50000
  else if tier = TierFrontRow then 20000
  else if tier = TierGA then 10000
  else 10000

/-- `CalculateAmount` (utils.go lines 29-42). `pricePerSeat * quantity` is
a `uint16 * uint16` product in Go, so it wraps modulo `2 ^ 16` before the
widening conversion to `uint64`. `quantity` is a `uint16` value. -/
def CalculateAmount (tier : String) (quantity : Nat) : Nat :=
  (pricePerSeat tier * quantity) % 2 ^ 16

/-- Fold a list of register calls over the seat store (each call's result
value is discarded, only the state threads through). -/
def applyRegisters (b : BOOKING_STORE_BUCKET) (os : List BookingOrder) :
    BOOKING_STORE_BUCKET :=
  os.foldl (fun st o => (RegisterBooking st o).2) b

/-- Fold a list of resolve calls over the idempotency store. -/
def applyResolves (ib : IDEMPOTENCY_BUCKET) (os : List BookingOrder) :
    IDEMPOTENCY_BUCKET :=
  os.foldl (fun st o => (HandleIdempotency st o).2) ib

/-- The fixed tier seat ranges (persist.go comment, handler.go constants):
VIP 1-30, FRONT_ROW 31-60, GA 61-100. `seatInTierRange t s` says seat `s`
lies in tier `t`'s range. -/
def seatInTierRange (tier : String) (s : Nat) : Prop :=
  (tier = TierVIP ∧ 1 ≤ s ∧ s ≤ 30) ∨
  (tier = TierFrontRow ∧ 31 ≤ s ∧ s ≤ 60) ∨
  (tier = TierGA ∧ 61 ≤ s ∧ s ≤ 100)

instance (tier : String) (s : Nat) : Decidable (seatInTierRange tier s) := by
  unfold seatInTierRange
  infer_instance

/-- `r` agrees with `o` on every field except (possibly) `status`: the
"identity fields are fixed at first observation" relation of the spec. -/
def agreesExceptStatus (r o : BookingOrder) : Prop :=
  r.userID = o.userID ∧ r.tier = o.tier ∧ r.quantity = o.quantity ∧
  r.idempotencyKey = o.idempotencyKey ∧ r.country = o.country ∧
  r.zipCode = o.zipCode ∧ r.currency = o.currency ∧ r.seatNo = o.seatNo ∧
  r.totalAmtInUSCent = o.totalAmtInUSCent ∧ r.paymentID = o.paymentID ∧
  r.paymentStatus = o.paymentStatus

instance (r o : BookingOrder) : Decidable (agreesExceptStatus r o) := by
  unfold agreesExceptStatus
  infer_instance

/-- A concrete well-formed booking order, used as the base input for the
concrete counterexamples and witnesses below. -/
def baseOrder : BookingOrder :=
  { userID := "u1"
    tier := "GA"
    quantity := 1
    status := "PENDING"
    idempotencyKey := "k1"
    country := "US"
    zipCode := "00100"
    currency := "USD"
    seatNo := 5
    totalAmtInUSCent := 1000
    paymentID := ""
    paymentStatus := "PENDING" }

/-!
## Helper lemmas about the seat store
-/

theorem storeFind_cons (k : Nat) (v : Booking) (m : List (Nat × Booking)) (s : Nat) :
    storeFind ((k, v) :: m) s = if k = s then some v else storeFind m s := by
  by_cases h : k = s <;> simp [storeFind, List.find?_cons, h]

theorem newBookingOf_seatNo (b : BOOKING_STORE_BUCKET) (o : BookingOrder) :
    (newBookingOf b o).seatNo = o.seatNo := by
  unfold newBookingOf
  dsimp only
  split <;> split <;> rfl

theorem newBookingOf_tier (b : BOOKING_STORE_BUCKET) (o : BookingOrder) :
    (newBookingOf b o).tier = o.tier := by
  unfold newBookingOf
  dsimp only
  split <;> split <;> rfl

theorem RegisterBooking_invalid (b : BOOKING_STORE_BUCKET) (o : BookingOrder)
    (h : o.seatNo = 0 ∨ o.seatNo > b.TOTAL_SEAT) :
    RegisterBooking b o = (Except.error "invalid seat number", b) := by
  unfold RegisterBooking
  rw [if_pos h]

theorem RegisterBooking_conflict (b : BOOKING_STORE_BUCKET) (o : BookingOrder)
    (bk : Booking)
    (hv : ¬(o.seatNo = 0 ∨ o.seatNo > b.TOTAL_SEAT))
    (hf : storeFind b.BOOKING_STORE o.seatNo = some bk) :
    RegisterBooking b o = (Except.error "seat already booked", b) := by
  unfold RegisterBooking
  rw [if_neg hv, hf]

theorem RegisterBooking_free (b : BOOKING_STORE_BUCKET) (o : BookingOrder)
    (hv : ¬(o.seatNo = 0 ∨ o.seatNo > b.TOTAL_SEAT))
    (hf : storeFind b.BOOKING_STORE o.seatNo = none) :
    RegisterBooking b o =
      (Except.ok (newBookingOf b o),
        { b with BOOKING_STORE := ((newBookingOf b o).seatNo, newBookingOf b o) :: b.BOOKING_STORE,
                 nextID := b.nextID + 1 }) := by
  unfold RegisterBooking
  rw [if_neg hv, hf]

/-- Inversion: a successful register call implies the seat was valid and
free, and identifies the result and post state. -/
theorem RegisterBooking_ok_inv (b b1 : BOOKING_STORE_BUCKET) (o : BookingOrder)
    (bk : Booking) (h : RegisterBooking b o = (Except.ok bk, b1)) :
    ¬(o.seatNo = 0 ∨ o.seatNo > b.TOTAL_SEAT) ∧
    storeFind b.BOOKING_STORE o.seatNo = none ∧
    bk = newBookingOf b o ∧
    b1 = { b with BOOKING_STORE := ((newBookingOf b o).seatNo, newBookingOf b o) :: b.BOOKING_STORE,
                  nextID := b.nextID + 1 } := by
  by_cases hv : o.seatNo = 0 ∨ o.seatNo > b.TOTAL_SEAT
  · rw [RegisterBooking_invalid b o hv] at h
    simp at h
  · cases hf : storeFind b.BOOKING_STORE o.seatNo with
    | some bk' =>
      rw [RegisterBooking_conflict b o bk' hv hf] at h
      simp at h
    | none =>
      rw [RegisterBooking_free b o hv hf] at h
      simp only [Prod.mk.injEq, Except.ok.injEq] at h
      exact ⟨hv, rfl, h.1.symm, h.2.symm⟩

theorem RegisterBooking_TOTAL_SEAT (b : BOOKING_STORE_BUCKET) (o : BookingOrder) :
    (RegisterBooking b o).2.TOTAL_SEAT = b.TOTAL_SEAT := by
  by_cases hv : o.seatNo = 0 ∨ o.seatNo > b.TOTAL_SEAT
  · rw [RegisterBooking_invalid b o hv]
  · cases hf : storeFind b.BOOKING_STORE o.seatNo with
    | some bk => rw [RegisterBooking_conflict b o bk hv hf]
    | none => rw [RegisterBooking_free b o hv hf]

/-- A register call never removes or replaces an existing seat entry. -/
theorem RegisterBooking_preserves (b : BOOKING_STORE_BUCKET) (o : BookingOrder)
    (s : Nat) (bk : Booking) (h : storeFind b.BOOKING_STORE s = some bk) :
    storeFind (RegisterBooking b o).2.BOOKING_STORE s = some bk := by
  by_cases hv : o.seatNo = 0 ∨ o.seatNo > b.TOTAL_SEAT
  · rw [RegisterBooking_invalid b o hv]
    exact h
  · cases hf : storeFind b.BOOKING_STORE o.seatNo with
    | some bk' =>
      rw [RegisterBooking_conflict b o bk' hv hf]
      exact h
    | none =>
      rw [RegisterBooking_free b o hv hf]
      dsimp only
      rw [storeFind_cons]
      rw [newBookingOf_seatNo]
      have hne : o.seatNo ≠ s := by
        intro he
        rw [he, h] at hf
        exact Option.noConfusion hf
      rw [if_neg hne]
      exact h

theorem applyRegisters_preserves (os : List BookingOrder) (b : BOOKING_STORE_BUCKET)
    (s : Nat) (bk : Booking) (h : storeFind b.BOOKING_STORE s = some bk) :
    storeFind (applyRegisters b os).BOOKING_STORE s = some bk := by
  induction os generalizing b with
  | nil => exact h
  | cons o os ih =>
    exact ih (RegisterBooking b o).2 (RegisterBooking_preserves b o s bk h)

theorem applyRegisters_TOTAL_SEAT (os : List BookingOrder) (b : BOOKING_STORE_BUCKET) :
    (applyRegisters b os).TOTAL_SEAT = b.TOTAL_SEAT := by
  induction os generalizing b with
  | nil => rfl
  | cons o os ih =>
    calc (applyRegisters (RegisterBooking b o).2 os).TOTAL_SEAT
        = (RegisterBooking b o).2.TOTAL_SEAT := ih (RegisterBooking b o).2
      _ = b.TOTAL_SEAT := RegisterBooking_TOTAL_SEAT b o

/-!
## Claim theorems about the seat store
-/

/-- C1: once a register call with seat `s` has succeeded, every subsequent
register call with seat `s` (after arbitrary further register calls on any
seats) fails with Conflict("seat already booked") and leaves the stored
record for `s` and the whole seat store unchanged. -/
theorem seat_uniqueness_after_success
    (b b1 : BOOKING_STORE_BUCKET) (o : BookingOrder) (bk : Booking)
    (h : RegisterBooking b o = (Except.ok bk, b1)) (os : List BookingOrder)
    (o2 : BookingOrder) (h2 : o2.seatNo = o.seatNo) :
    storeFind (applyRegisters b1 os).BOOKING_STORE o.seatNo = some bk ∧
    RegisterBooking (applyRegisters b1 os) o2 =
      (Except.error "seat already booked", applyRegisters b1 os) := by
  obtain ⟨hv, hf, hbk, hb1⟩ := RegisterBooking_ok_inv b b1 o bk h
  have hfind1 : storeFind b1.BOOKING_STORE o.seatNo = some bk := by
    rw [hb1]
    dsimp only
    rw [storeFind_cons, newBookingOf_seatNo, if_pos rfl, hbk]
  have hfind : storeFind (applyRegisters b1 os).BOOKING_STORE o.seatNo = some bk :=
    applyRegisters_preserves os b1 _ _ hfind1
  refine ⟨hfind, ?_⟩
  have hts : (applyRegisters b1 os).TOTAL_SEAT = b.TOTAL_SEAT := by
    rw [applyRegisters_TOTAL_SEAT, hb1]
  have hv2 : ¬(o2.seatNo = 0 ∨ o2.seatNo > (applyRegisters b1 os).TOTAL_SEAT) := by
    rw [h2, hts]
    exact hv
  refine RegisterBooking_conflict _ o2 bk hv2 ?_
  rw [h2]
  exact hfind

/-- Witness for C1 at a concrete input: register seat 5 once, then again. -/
theorem seat_uniqueness_after_success_witness :
    storeFind (applyRegisters (RegisterBooking NewBookingStoreBucket baseOrder).2 []).BOOKING_STORE
        baseOrder.seatNo = some (newBookingOf NewBookingStoreBucket baseOrder) ∧
    RegisterBooking (applyRegisters (RegisterBooking NewBookingStoreBucket baseOrder).2 []) baseOrder =
      (Except.error "seat already booked",
        applyRegisters (RegisterBooking NewBookingStoreBucket baseOrder).2 []) :=
  seat_uniqueness_after_success NewBookingStoreBucket
    (RegisterBooking NewBookingStoreBucket baseOrder).2 baseOrder
    (newBookingOf NewBookingStoreBucket baseOrder) rfl [] baseOrder rfl

/-- C3 counterexample: a request whose own status field is CONFIRMED, with
an empty payment reference and a PENDING payment outcome, lands in the
claim's "every other case" but the created record's status is CONFIRMED,
not pending. -/
theorem register_status_counterexample :
    (RegisterBooking NewBookingStoreBucket { baseOrder with status := "CONFIRMED" }).1 =
      Except.ok (newBookingOf NewBookingStoreBucket { baseOrder with status := "CONFIRMED" }) ∧
    { baseOrder with status := "CONFIRMED" : BookingOrder }.paymentID = "" ∧
    { baseOrder with status := "CONFIRMED" : BookingOrder }.paymentStatus = PaymentStatusPending ∧
    (newBookingOf NewBookingStoreBucket { baseOrder with status := "CONFIRMED" }).status ≠
      BookingStatusPending := by
  refine ⟨rfl, rfl, rfl, by decide⟩

/-- C3 (amended): on success the created record's status is confirmed when
the payment reference is non-empty and the payment outcome is confirmed,
canceled when the payment outcome is failed or canceled, and otherwise it
keeps the request's own incoming status field (which is pending exactly
when the request's status is pending). -/
theorem register_status_derivation (b b1 : BOOKING_STORE_BUCKET) (o : BookingOrder)
    (bk : Booking) (h : RegisterBooking b o = (Except.ok bk, b1)) :
    bk.status =
      if 0 < o.paymentID.length ∧ o.paymentStatus = PaymentStatusConfirmed then
        BookingStatusConfirmed
      else if o.paymentStatus = PaymentStatusFailed ∨ o.paymentStatus = PaymentStatusCanceled then
        BookingStatusCanceled
      else o.status := by
  obtain ⟨-, -, hbk, -⟩ := RegisterBooking_ok_inv b b1 o bk h
  subst hbk
  unfold newBookingOf
  dsimp only
  by_cases h1 : 0 < o.paymentID.length ∧ o.paymentStatus = PaymentStatusConfirmed
  · rw [if_pos h1, if_pos h1]
    dsimp only
    have h2 : ¬(o.paymentStatus = PaymentStatusFailed ∨ o.paymentStatus = PaymentStatusCanceled) := by
      rw [h1.2]
      decide
    rw [if_neg h2]
  · rw [if_neg h1, if_neg h1]
    by_cases h2 : o.paymentStatus = PaymentStatusFailed ∨ o.paymentStatus = PaymentStatusCanceled
    · rw [if_pos h2, if_pos h2]
    · rw [if_neg h2, if_neg h2]

/-- Witness for C3 (amended): a pending request with failed payment
outcome yields a canceled record. -/
theorem register_status_derivation_witness :
    (newBookingOf NewBookingStoreBucket { baseOrder with paymentStatus := "FAILED" }).status =
      if 0 < { baseOrder with paymentStatus := "FAILED" : BookingOrder }.paymentID.length ∧
          { baseOrder with paymentStatus := "FAILED" : BookingOrder }.paymentStatus = PaymentStatusConfirmed then
        BookingStatusConfirmed
      else if { baseOrder with paymentStatus := "FAILED" : BookingOrder }.paymentStatus = PaymentStatusFailed ∨
          { baseOrder with paymentStatus := "FAILED" : BookingOrder }.paymentStatus = PaymentStatusCanceled then
        BookingStatusCanceled
      else { baseOrder with paymentStatus := "FAILED" : BookingOrder }.status :=
  register_status_derivation NewBookingStoreBucket
    (RegisterBooking NewBookingStoreBucket { baseOrder with paymentStatus := "FAILED" }).2
    { baseOrder with paymentStatus := "FAILED" }
    (newBookingOf NewBookingStoreBucket { baseOrder with paymentStatus := "FAILED" })
    rfl

/-- C7: register fails with InvalidInput("invalid seat number") exactly
when seat = 0 or seat > TOTAL_SEAT, without modifying the store; for an
otherwise-free seat, seat = 1 and seat = TOTAL_SEAT = 100 both succeed. -/
theorem register_validation_boundary (b : BOOKING_STORE_BUCKET) (o : BookingOrder) :
    ((RegisterBooking b o).1 = Except.error "invalid seat number" ↔
      o.seatNo = 0 ∨ o.seatNo > b.TOTAL_SEAT) ∧
    ((o.seatNo = 0 ∨ o.seatNo > b.TOTAL_SEAT) → (RegisterBooking b o).2 = b) ∧
    (b.TOTAL_SEAT = 100 → (o.seatNo = 1 ∨ o.seatNo = 100) →
      storeFind b.BOOKING_STORE o.seatNo = none →
      (RegisterBooking b o).1 = Except.ok (newBookingOf b o)) := by
  refine ⟨⟨?_, ?_⟩, ?_, ?_⟩
  · intro he
    by_contra hv
    cases hf : storeFind b.BOOKING_STORE o.seatNo with
    | some bk =>
      rw [RegisterBooking_conflict b o bk hv hf] at he
      simp only [Except.error.injEq] at he
      exact absurd he (by decide)
    | none =>
      rw [RegisterBooking_free b o hv hf] at he
      simp at he
  · intro hv
    rw [RegisterBooking_invalid b o hv]
  · intro hv
    rw [RegisterBooking_invalid b o hv]
  · intro hcap hb hf
    have hv : ¬(o.seatNo = 0 ∨ o.seatNo > b.TOTAL_SEAT) := by
      rw [hcap]
      rcases hb with hb | hb <;> rw [hb] <;> decide
    rw [RegisterBooking_free b o hv hf]

/-- Witness for C7 at concrete inputs: seat 0 is rejected, seat 100 (free,
full bucket capacity) succeeds. -/
theorem register_validation_boundary_witness :
    ((RegisterBooking NewBookingStoreBucket { baseOrder with seatNo := 0 }).1 =
      Except.error "invalid seat number") ∧
    (RegisterBooking NewBookingStoreBucket { baseOrder with seatNo := 0 }).2 =
      NewBookingStoreBucket ∧
    (RegisterBooking NewBookingStoreBucket { baseOrder with seatNo := 100 }).1 =
      Except.ok (newBookingOf NewBookingStoreBucket { baseOrder with seatNo := 100 }) :=
  ⟨(register_validation_boundary NewBookingStoreBucket { baseOrder with seatNo := 0 }).1.mpr
      (Or.inl rfl),
   (register_validation_boundary NewBookingStoreBucket { baseOrder with seatNo := 0 }).2.1
      (Or.inl rfl),
   (register_validation_boundary NewBookingStoreBucket { baseOrder with seatNo := 100 }).2.2
      rfl (Or.inr rfl) rfl⟩

/-- C8: lookup returns the stored record for the seat whenever one exists,
and fails with NotFound("booking not found") exactly when none exists; the
embedding of `GetBooking` is a pure read, so it cannot modify the store. -/
theorem lookup_spec (b : BOOKING_STORE_BUCKET) (s : Nat) :
    (∀ bk, storeFind b.BOOKING_STORE s = some bk → GetBooking b s = Except.ok bk) ∧
    (GetBooking b s = Except.error "booking not found" ↔
      storeFind b.BOOKING_STORE s = none) := by
  unfold GetBooking
  cases hf : storeFind b.BOOKING_STORE s with
  | some bk => simp
  | none => simp

/-- Witness for C8 at a concrete input: the empty store has no booking for
seat 5. -/
theorem lookup_spec_witness :
    GetBooking NewBookingStoreBucket 5 = Except.error "booking not found" :=
  (lookup_spec NewBookingStoreBucket 5).2.mpr rfl

/-- C9: register accepts any tier value; a successfully registered booking
with an unknown tier occupies its seat (a later register on that seat gets
Conflict and the store is unchanged) yet contributes to none of the three
reserved lists: `GetReservedSeats` is unchanged by the insertion. -/
theorem unknown_tier_booking (b : BOOKING_STORE_BUCKET) (o : BookingOrder)
    (hv : ¬(o.seatNo = 0 ∨ o.seatNo > b.TOTAL_SEAT))
    (hf : storeFind b.BOOKING_STORE o.seatNo = none)
    (ht : o.tier ≠ TierVIP ∧ o.tier ≠ TierFrontRow ∧ o.tier ≠ TierGA) :
    (RegisterBooking b o).1 = Except.ok (newBookingOf b o) ∧
    GetReservedSeats (RegisterBooking b o).2 = GetReservedSeats b ∧
    ∀ o2, o2.seatNo = o.seatNo →
      RegisterBooking (RegisterBooking b o).2 o2 =
        (Except.error "seat already booked", (RegisterBooking b o).2) := by
  rw [RegisterBooking_free b o hv hf]
  dsimp only
  have htier := newBookingOf_tier b o
  refine ⟨rfl, ?_, ?_⟩
  · unfold GetReservedSeats
    dsimp only
    rw [List.filter_cons_of_neg, List.filter_cons_of_neg, List.filter_cons_of_neg]
    · simp only [htier, decide_eq_true_eq]
      exact ht.2.2
    · simp only [htier, decide_eq_true_eq]
      exact ht.2.1
    · simp only [htier, decide_eq_true_eq]
      exact ht.1
  · intro o2 h2
    have hfind : storeFind
        (((newBookingOf b o).seatNo, newBookingOf b o) :: b.BOOKING_STORE) o2.seatNo =
        some (newBookingOf b o) := by
      rw [storeFind_cons, newBookingOf_seatNo, h2, if_pos rfl]
    exact RegisterBooking_conflict _ o2 (newBookingOf b o)
      (by rw [h2]; exact hv) hfind

/-- Witness for C9 at a concrete input: tier "SILVER" books seat 5, the
reserved lists are unchanged, and a rebooking of seat 5 (by another user)
conflicts. -/
theorem unknown_tier_booking_witness :
    (RegisterBooking NewBookingStoreBucket { baseOrder with tier := "SILVER" }).1 =
      Except.ok (newBookingOf NewBookingStoreBucket { baseOrder with tier := "SILVER" }) ∧
    GetReservedSeats (RegisterBooking NewBookingStoreBucket { baseOrder with tier := "SILVER" }).2 =
      GetReservedSeats NewBookingStoreBucket ∧
    RegisterBooking (RegisterBooking NewBookingStoreBucket { baseOrder with tier := "SILVER" }).2
        { baseOrder with userID := "u2" } =
      (Except.error "seat already booked",
        (RegisterBooking NewBookingStoreBucket { baseOrder with tier := "SILVER" }).2) := by
  obtain ⟨h1, h2, h3⟩ :=
    unknown_tier_booking NewBookingStoreBucket { baseOrder with tier := "SILVER" }
      (by decide) rfl (by refine ⟨?_, ?_, ?_⟩ <;> decide)
  exact ⟨h1, h2, h3 { baseOrder with userID := "u2" } rfl⟩

/-!
## Helper lemmas about the idempotency store
-/

theorem istoreFind_cons (k0 : String) (v0 : BookingOrder)
    (m : List (String × BookingOrder)) (k : String) :
    istoreFind ((k0, v0) :: m) k = if k0 = k then some v0 else istoreFind m k := by
  by_cases h : k0 = k <;> simp [istoreFind, List.find?_cons, h]

theorem istoreFind_istoreStore (m : List (String × BookingOrder)) (k k' : String)
    (v : BookingOrder) :
    istoreFind (istoreStore m k v) k' = if k = k' then some v else istoreFind m k' := by
  induction m with
  | nil =>
    by_cases h : k = k' <;> simp [istoreStore, istoreFind_cons, istoreFind, h]
  | cons p rest ih =>
    obtain ⟨k0, v0⟩ := p
    by_cases h0 : k0 = k
    · subst h0
      by_cases h : k0 = k' <;> simp [istoreStore, istoreFind_cons, h]
    · by_cases h : k = k'
      · subst h
        simp [istoreStore, h0, istoreFind_cons, ih]
      · by_cases hk0 : k0 = k'
        · subst hk0
          simp [istoreStore, h0, istoreFind_cons, ih, h]
        · simp [istoreStore, h0, istoreFind_cons, ih, h, hk0]

theorem HandleIdempotency_absent (ib : IDEMPOTENCY_BUCKET) (o : BookingOrder)
    (h : istoreFind ib.IDEMPOTENCY_STORE o.idempotencyKey = none) :
    HandleIdempotency ib o =
      (o, { IDEMPOTENCY_STORE := istoreStore ib.IDEMPOTENCY_STORE o.idempotencyKey o }) := by
  unfold HandleIdempotency
  rw [h]

theorem HandleIdempotency_present_pending (ib : IDEMPOTENCY_BUCKET) (o : BookingOrder)
    (stored : BookingOrder)
    (h : istoreFind ib.IDEMPOTENCY_STORE o.idempotencyKey = some stored)
    (hp : o.status = BookingStatusPending) :
    HandleIdempotency ib o = (stored, ib) := by
  unfold HandleIdempotency
  rw [h]
  exact if_neg (not_not_intro hp)

theorem HandleIdempotency_present_update (ib : IDEMPOTENCY_BUCKET) (o : BookingOrder)
    (stored : BookingOrder)
    (h : istoreFind ib.IDEMPOTENCY_STORE o.idempotencyKey = some stored)
    (hp : o.status ≠ BookingStatusPending) :
    HandleIdempotency ib o =
      ({ stored with status := o.status },
        { IDEMPOTENCY_STORE :=
            istoreStore ib.IDEMPOTENCY_STORE o.idempotencyKey
              { stored with status := o.status } }) := by
  unfold HandleIdempotency
  rw [h]
  exact if_pos hp

/-- A resolve call on a different key leaves this key's entry unchanged. -/
theorem HandleIdempotency_find_ne (ib : IDEMPOTENCY_BUCKET) (o : BookingOrder)
    (k : String) (hk : o.idempotencyKey ≠ k) :
    istoreFind (HandleIdempotency ib o).2.IDEMPOTENCY_STORE k =
      istoreFind ib.IDEMPOTENCY_STORE k := by
  cases hf : istoreFind ib.IDEMPOTENCY_STORE o.idempotencyKey with
  | none =>
    rw [HandleIdempotency_absent ib o hf]
    dsimp only
    rw [istoreFind_istoreStore, if_neg hk]
  | some stored =>
    by_cases hp : o.status = BookingStatusPending
    · rw [HandleIdempotency_present_pending ib o stored hf hp]
    · rw [HandleIdempotency_present_update ib o stored hf hp]
      dsimp only
      rw [istoreFind_istoreStore, if_neg hk]

/-- Invariant: once the entry for a key agrees with the first order on all
non-status fields, it keeps doing so under any further resolve calls. -/
theorem applyResolves_agrees (k : String) (o : BookingOrder) (os : List BookingOrder)
    (ib : IDEMPOTENCY_BUCKET)
    (h : ∃ r, istoreFind ib.IDEMPOTENCY_STORE k = some r ∧ agreesExceptStatus r o) :
    ∃ r, istoreFind (applyResolves ib os).IDEMPOTENCY_STORE k = some r ∧
      agreesExceptStatus r o := by
  induction os generalizing ib with
  | nil => exact h
  | cons o2 os ih =>
    apply ih
    dsimp only
    obtain ⟨r, hr, ha⟩ := h
    by_cases hk : o2.idempotencyKey = k
    · have hr2 : istoreFind ib.IDEMPOTENCY_STORE o2.idempotencyKey = some r := by
        rw [hk]
        exact hr
      by_cases hp : o2.status = BookingStatusPending
      · rw [HandleIdempotency_present_pending ib o2 r hr2 hp]
        exact ⟨r, hr, ha⟩
      · rw [HandleIdempotency_present_update ib o2 r hr2 hp]
        dsimp only
        rw [istoreFind_istoreStore, if_pos hk]
        exact ⟨{ r with status := o2.status }, rfl, ha⟩
    · rw [HandleIdempotency_find_ne ib o2 k hk]
      exact ⟨r, hr, ha⟩

/-- Invariant: once the stored status for a key is not PENDING, it never
becomes PENDING again under any further resolve calls. -/
theorem applyResolves_nonpending (k : String) (os : List BookingOrder)
    (ib : IDEMPOTENCY_BUCKET)
    (h : ∃ r, istoreFind ib.IDEMPOTENCY_STORE k = some r ∧
      r.status ≠ BookingStatusPending) :
    ∃ r, istoreFind (applyResolves ib os).IDEMPOTENCY_STORE k = some r ∧
      r.status ≠ BookingStatusPending := by
  induction os generalizing ib with
  | nil => exact h
  | cons o2 os ih =>
    apply ih
    dsimp only
    obtain ⟨r, hr, hs⟩ := h
    by_cases hk : o2.idempotencyKey = k
    · have hr2 : istoreFind ib.IDEMPOTENCY_STORE o2.idempotencyKey = some r := by
        rw [hk]
        exact hr
      by_cases hp : o2.status = BookingStatusPending
      · rw [HandleIdempotency_present_pending ib o2 r hr2 hp]
        exact ⟨r, hr, hs⟩
      · rw [HandleIdempotency_present_update ib o2 r hr2 hp]
        dsimp only
        rw [istoreFind_istoreStore, if_pos hk]
        exact ⟨{ r with status := o2.status }, rfl, hp⟩
    · rw [HandleIdempotency_find_ne ib o2 k hk]
      exact ⟨r, hr, hs⟩

/-!
## Claim theorems about the idempotency store
-/

/-- C2: the first resolve call for a key stores its order verbatim and
returns it; every later resolve call for that key (after arbitrary
intervening resolve calls) returns a record that agrees with that first
order on every field except possibly status. -/
theorem idempotency_first_writer_wins (ib : IDEMPOTENCY_BUCKET) (o : BookingOrder)
    (habs : istoreFind ib.IDEMPOTENCY_STORE o.idempotencyKey = none) :
    (HandleIdempotency ib o).1 = o ∧
    istoreFind (HandleIdempotency ib o).2.IDEMPOTENCY_STORE o.idempotencyKey = some o ∧
    ∀ os o2, o2.idempotencyKey = o.idempotencyKey →
      agreesExceptStatus
        (HandleIdempotency (applyResolves (HandleIdempotency ib o).2 os) o2).1 o := by
  rw [HandleIdempotency_absent ib o habs]
  dsimp only
  have hself : istoreFind (istoreStore ib.IDEMPOTENCY_STORE o.idempotencyKey o)
      o.idempotencyKey = some o := by
    rw [istoreFind_istoreStore, if_pos rfl]
  refine ⟨rfl, hself, ?_⟩
  intro os o2 hk2
  have hagree : agreesExceptStatus o o :=
    ⟨rfl, rfl, rfl, rfl, rfl, rfl, rfl, rfl, rfl, rfl, rfl⟩
  obtain ⟨r, hr, ha⟩ :=
    applyResolves_agrees o.idempotencyKey o os
      { IDEMPOTENCY_STORE := istoreStore ib.IDEMPOTENCY_STORE o.idempotencyKey o }
      ⟨o, hself, hagree⟩
  have hr2 : istoreFind (applyResolves
      { IDEMPOTENCY_STORE := istoreStore ib.IDEMPOTENCY_STORE o.idempotencyKey o } os).IDEMPOTENCY_STORE
      o2.idempotencyKey = some r := by
    rw [hk2]
    exact hr
  by_cases hp : o2.status = BookingStatusPending
  · rw [HandleIdempotency_present_pending _ o2 r hr2 hp]
    exact ha
  · rw [HandleIdempotency_present_update _ o2 r hr2 hp]
    exact ha

/-- Witness for C2 at a concrete input: first write with key "k1", then a
later call with the same key and a different status. -/
theorem idempotency_first_writer_wins_witness :
    (HandleIdempotency NewIdempotencyBucket baseOrder).1 = baseOrder ∧
    istoreFind (HandleIdempotency NewIdempotencyBucket baseOrder).2.IDEMPOTENCY_STORE
      baseOrder.idempotencyKey = some baseOrder ∧
    agreesExceptStatus
      (HandleIdempotency
        (applyResolves (HandleIdempotency NewIdempotencyBucket baseOrder).2 [])
        { baseOrder with status := "CONFIRMED" }).1 baseOrder := by
  obtain ⟨h1, h2, h3⟩ := idempotency_first_writer_wins NewIdempotencyBucket baseOrder rfl
  exact ⟨h1, h2, h3 [] { baseOrder with status := "CONFIRMED" } rfl⟩

/-- C4 counterexample: the key "k1" is first resolved with the settled
status CONFIRMED; a later resolve with status CANCELED overwrites the
settled stored status, both in the returned record and in the store. -/
theorem status_monotonicity_counterexample :
    istoreFind (HandleIdempotency NewIdempotencyBucket
        { baseOrder with status := "CONFIRMED" }).2.IDEMPOTENCY_STORE
      baseOrder.idempotencyKey = some { baseOrder with status := "CONFIRMED" } ∧
    (HandleIdempotency (HandleIdempotency NewIdempotencyBucket
        { baseOrder with status := "CONFIRMED" }).2
      { baseOrder with status := "CANCELED" }).1.status = "CANCELED" ∧
    istoreFind (HandleIdempotency (HandleIdempotency NewIdempotencyBucket
        { baseOrder with status := "CONFIRMED" }).2
      { baseOrder with status := "CANCELED" }).2.IDEMPOTENCY_STORE baseOrder.idempotencyKey =
      some { baseOrder with status := "CANCELED" } ∧
    ("CANCELED" : String) ≠ "CONFIRMED" := by
  refine ⟨rfl, rfl, rfl, by decide⟩

/-- C4 (amended): an incoming PENDING status never changes the stored
record; an incoming non-PENDING status overwrites the stored status (even
replacing one settled value by a different one); consequently once the
stored status is non-PENDING it never returns to PENDING under any further
resolve calls. -/
theorem status_never_reverts_to_pending (ib : IDEMPOTENCY_BUCKET)
    (o stored : BookingOrder)
    (h : istoreFind ib.IDEMPOTENCY_STORE o.idempotencyKey = some stored) :
    (o.status = BookingStatusPending → HandleIdempotency ib o = (stored, ib)) ∧
    (o.status ≠ BookingStatusPending →
      (HandleIdempotency ib o).1 = { stored with status := o.status }) ∧
    (stored.status ≠ BookingStatusPending → ∀ os,
      ∃ r, istoreFind (applyResolves ib os).IDEMPOTENCY_STORE o.idempotencyKey = some r ∧
        r.status ≠ BookingStatusPending) := by
  refine ⟨?_, ?_, ?_⟩
  · intro hp
    exact HandleIdempotency_present_pending ib o stored h hp
  · intro hp
    rw [HandleIdempotency_present_update ib o stored h hp]
  · intro hs os
    exact applyResolves_nonpending o.idempotencyKey os ib ⟨stored, h, hs⟩

/-- Witness for C4 (amended) at a concrete input: after a CONFIRMED write
for key "k1", a PENDING resolve leaves the record untouched and the
stored status stays non-PENDING. -/
theorem status_never_reverts_to_pending_witness :
    (HandleIdempotency (HandleIdempotency NewIdempotencyBucket
        { baseOrder with status := "CONFIRMED" }).2 baseOrder =
      ({ baseOrder with status := "CONFIRMED" },
        (HandleIdempotency NewIdempotencyBucket { baseOrder with status := "CONFIRMED" }).2)) ∧
    istoreFind (applyResolves (HandleIdempotency NewIdempotencyBucket
        { baseOrder with status := "CONFIRMED" }).2 []).IDEMPOTENCY_STORE
        baseOrder.idempotencyKey =
      some { baseOrder with status := "CONFIRMED" } ∧
    ({ baseOrder with status := "CONFIRMED" : BookingOrder }).status ≠
      BookingStatusPending := by
  obtain ⟨h1, h2, h3⟩ := status_never_reverts_to_pending
    (HandleIdempotency NewIdempotencyBucket { baseOrder with status := "CONFIRMED" }).2
    baseOrder { baseOrder with status := "CONFIRMED" } rfl
  obtain ⟨r, hr, hs⟩ := h3 (by decide) []
  have hval : istoreFind (applyResolves (HandleIdempotency NewIdempotencyBucket
      { baseOrder with status := "CONFIRMED" }).2 []).IDEMPOTENCY_STORE
      baseOrder.idempotencyKey = some { baseOrder with status := "CONFIRMED" } := rfl
  have hreq : r = { baseOrder with status := "CONFIRMED" } := by
    rw [hval] at hr
    exact (Option.some.injEq _ _ ▸ hr.symm)
  exact ⟨h1 rfl, hval, hreq ▸ hs⟩

/-- C6: for one key, the sequential statuses pending, confirmed, pending
yield returned statuses pending, confirmed, confirmed; moreover the third
(pending) call leaves the idempotency bucket — and hence the stored
record, whose value is the record returned by the second call — exactly
unchanged, so it does not revert the stored status. -/
theorem pending_confirmed_pending_sequence (ib : IDEMPOTENCY_BUCKET)
    (o1 o2 o3 : BookingOrder)
    (hk2 : o2.idempotencyKey = o1.idempotencyKey)
    (hk3 : o3.idempotencyKey = o1.idempotencyKey)
    (h1 : o1.status = BookingStatusPending)
    (h2 : o2.status = BookingStatusConfirmed)
    (h3 : o3.status = BookingStatusPending)
    (habs : istoreFind ib.IDEMPOTENCY_STORE o1.idempotencyKey = none) :
    (HandleIdempotency ib o1).1.status = BookingStatusPending ∧
    (HandleIdempotency (HandleIdempotency ib o1).2 o2).1.status = BookingStatusConfirmed ∧
    (HandleIdempotency (HandleIdempotency (HandleIdempotency ib o1).2 o2).2 o3).1.status =
      BookingStatusConfirmed ∧
    HandleIdempotency (HandleIdempotency (HandleIdempotency ib o1).2 o2).2 o3 =
      ((HandleIdempotency (HandleIdempotency ib o1).2 o2).1,
        (HandleIdempotency (HandleIdempotency ib o1).2 o2).2) ∧
    istoreFind (HandleIdempotency (HandleIdempotency (HandleIdempotency ib o1).2 o2).2
        o3).2.IDEMPOTENCY_STORE o3.idempotencyKey =
      some (HandleIdempotency (HandleIdempotency ib o1).2 o2).1 := by
  rw [HandleIdempotency_absent ib o1 habs]
  dsimp only
  have hfind2 : istoreFind (istoreStore ib.IDEMPOTENCY_STORE o1.idempotencyKey o1)
      o2.idempotencyKey = some o1 := by
    rw [hk2, istoreFind_istoreStore, if_pos rfl]
  have hne2 : o2.status ≠ BookingStatusPending := by
    rw [h2]
    decide
  rw [HandleIdempotency_present_update _ o2 o1 hfind2 hne2]
  dsimp only
  have hfind3 : istoreFind
      (istoreStore (istoreStore ib.IDEMPOTENCY_STORE o1.idempotencyKey o1)
        o2.idempotencyKey { o1 with status := o2.status })
      o3.idempotencyKey = some { o1 with status := o2.status } := by
    rw [hk3, ← hk2, istoreFind_istoreStore, if_pos rfl]
  rw [HandleIdempotency_present_pending _ o3 { o1 with status := o2.status } hfind3 h3]
  exact ⟨h1, h2, h2, rfl, hfind3⟩

/-- Witness for C6 at a concrete input: key "k1" resolved with PENDING,
then CONFIRMED, then PENDING; the third call returns CONFIRMED and leaves
the bucket and the stored record untouched. -/
theorem pending_confirmed_pending_sequence_witness :
    (HandleIdempotency NewIdempotencyBucket baseOrder).1.status = BookingStatusPending ∧
    (HandleIdempotency (HandleIdempotency NewIdempotencyBucket baseOrder).2
      { baseOrder with status := "CONFIRMED" }).1.status = BookingStatusConfirmed ∧
    (HandleIdempotency (HandleIdempotency (HandleIdempotency NewIdempotencyBucket baseOrder).2
      { baseOrder with status := "CONFIRMED" }).2 baseOrder).1.status =
      BookingStatusConfirmed ∧
    HandleIdempotency (HandleIdempotency (HandleIdempotency NewIdempotencyBucket baseOrder).2
      { baseOrder with status := "CONFIRMED" }).2 baseOrder =
      ((HandleIdempotency (HandleIdempotency NewIdempotencyBucket baseOrder).2
        { baseOrder with status := "CONFIRMED" }).1,
       (HandleIdempotency (HandleIdempotency NewIdempotencyBucket baseOrder).2
        { baseOrder with status := "CONFIRMED" }).2) ∧
    istoreFind (HandleIdempotency (HandleIdempotency
        (HandleIdempotency NewIdempotencyBucket baseOrder).2
        { baseOrder with status := "CONFIRMED" }).2 baseOrder).2.IDEMPOTENCY_STORE
      baseOrder.idempotencyKey =
      some (HandleIdempotency (HandleIdempotency NewIdempotencyBucket baseOrder).2
        { baseOrder with status := "CONFIRMED" }).1 :=
  pending_confirmed_pending_sequence NewIdempotencyBucket baseOrder
    { baseOrder with status := "CONFIRMED" } baseOrder rfl rfl rfl rfl rfl rfl

/-!
## C10: CalculateAmount wraps in 16-bit arithmetic
-/

/-- C10: `CalculateAmount` multiplies the per-seat price by the quantity
in 16-bit unsigned arithmetic before widening, so the returned amount is
(price × quantity) mod 65536 for every tier and quantity; in particular
VIP (price 50000) with quantity 2 returns 34464, not 100000. -/
theorem calculateAmount_wraps_uint16 :
    (∀ tier quantity, CalculateAmount tier quantity = pricePerSeat tier * quantity % 65536) ∧
    pricePerSeat TierVIP = 50000 ∧
    CalculateAmount TierVIP 2 = 34464 ∧
    CalculateAmount TierVIP 2 ≠ 100000 := by
  refine ⟨fun t q => rfl, rfl, by decide, by decide⟩

/-!
## C5: availability partition
-/

/-- Generic partition fact for one tier's row: if the store's keys are
distinct, every booking of this tier sits in [lo, hi], and every booking
of another tier sits outside [lo, hi], then reserved + available =
hi + 1 - lo, the available list is strictly ascending, and no available
seat has a stored booking. -/
theorem tier_partition (m : List (Nat × Booking)) (tier : String) (lo hi : Nat)
    (hnd : (m.map (fun p => p.1)).Nodup)
    (hin : ∀ p ∈ m, p.2.tier = tier → lo ≤ p.1 ∧ p.1 ≤ hi)
    (hout : ∀ p ∈ m, p.2.tier ≠ tier → ¬(lo ≤ p.1 ∧ p.1 ≤ hi)) :
    ((m.filter (fun p => p.2.tier = tier)).map (fun p => p.1)).length +
        (calculateAvailableSeats lo hi
          ((m.filter (fun p => p.2.tier = tier)).map (fun p => p.1))).length =
      hi + 1 - lo ∧
    (calculateAvailableSeats lo hi
      ((m.filter (fun p => p.2.tier = tier)).map (fun p => p.1))).Pairwise (· < ·) ∧
    ∀ s ∈ calculateAvailableSeats lo hi
        ((m.filter (fun p => p.2.tier = tier)).map (fun p => p.1)),
      storeFind m s = none := by
  set res := (m.filter (fun p => p.2.tier = tier)).map (fun p => p.1) with hres
  have hIco : List.range' lo (hi + 1 - lo) = List.Ico lo (hi + 1) := rfl
  have hmem_res : ∀ s, s ∈ res ↔ ∃ p, p ∈ m ∧ p.2.tier = tier ∧ p.1 = s := by
    intro s
    rw [hres]
    simp only [List.mem_map, List.mem_filter, decide_eq_true_eq]
    constructor
    · rintro ⟨p, ⟨hpm, hpt⟩, hps⟩
      exact ⟨p, hpm, hpt, hps⟩
    · rintro ⟨p, hpm, hpt, hps⟩
      exact ⟨p, ⟨hpm, hpt⟩, hps⟩
  have hres_nodup : res.Nodup := by
    rw [hres]
    exact hnd.sublist ((List.filter_sublist m).map (fun p => p.1))
  have hres_sub : ∀ s ∈ res, s ∈ List.Ico lo (hi + 1) := by
    intro s hs
    obtain ⟨p, hpm, hpt, hps⟩ := (hmem_res s).1 hs
    have hb := hin p hpm hpt
    rw [List.Ico.mem]
    omega
  have havail : calculateAvailableSeats lo hi res =
      (List.Ico lo (hi + 1)).filter (fun i => ! decide (i ∈ res)) := by
    unfold calculateAvailableSeats
    rw [hIco]
    apply List.filter_congr
    intro a _
    simp [decide_not]
  have hcount : ((List.Ico lo (hi + 1)).filter (fun i => decide (i ∈ res))).length =
      res.length := by
    apply List.Perm.length_eq
    apply (List.perm_ext_iff_of_nodup
      ((List.Ico.nodup lo (hi + 1)).sublist (List.filter_sublist _)) hres_nodup).2
    intro a
    simp only [List.mem_filter, decide_eq_true_eq]
    constructor
    · rintro ⟨-, ha⟩
      exact ha
    · intro ha
      exact ⟨hres_sub a ha, ha⟩
  refine ⟨?_, ?_, ?_⟩
  · have hsplit :=
      List.length_eq_length_filter_add (l := List.Ico lo (hi + 1))
        (fun i => decide (i ∈ res))
    rw [List.Ico.length] at hsplit
    rw [hcount] at hsplit
    rw [havail]
    omega
  · rw [havail]
    exact (List.Ico.pairwise_lt lo (hi + 1)).sublist (List.filter_sublist _)
  · intro s hs
    rw [havail, List.mem_filter] at hs
    obtain ⟨hsI, hsn⟩ := hs
    rw [List.Ico.mem] at hsI
    have hsnot : s ∉ res := by
      intro hmem
      rw [Bool.not_eq_eq_eq_not] at hsn
      simp [hmem] at hsn
    unfold storeFind
    rw [Option.map_eq_none', List.find?_eq_none]
    intro p hpm
    simp only [decide_eq_true_eq]
    intro hps
    by_cases hpt : p.2.tier = tier
    · exact hsnot ((hmem_res s).2 ⟨p, hpm, hpt, hps⟩)
    · have := hout p hpm hpt
      omega

/-- C5 counterexample: registering the (reachable, validation-passing)
order with tier GA and seat 5 yields a store state whose GA availability
row has reserved_count + available_count = 41 ≠ 40 = tier_capacity, and
whose VIP available list contains seat 5 although seat 5 has a stored
BookingRecord. -/
theorem availability_partition_counterexample :
    (RegisterBooking NewBookingStoreBucket baseOrder).1 =
      Except.ok (newBookingOf NewBookingStoreBucket baseOrder) ∧
    ((HandleAvailability (RegisterBooking NewBookingStoreBucket baseOrder).2).get? 2).map
        (fun ti => (ti.reservedCount, ti.availableList.length, ti.totalSeats)) =
      some (1, 40, 40) ∧
    (1 : Nat) + 40 ≠ 40 ∧
    ((HandleAvailability (RegisterBooking NewBookingStoreBucket baseOrder).2).get? 0).map
        (fun ti => decide (5 ∈ ti.availableList)) = some true ∧
    GetBooking (RegisterBooking NewBookingStoreBucket baseOrder).2 5 =
      Except.ok (newBookingOf NewBookingStoreBucket baseOrder) := by
  refine ⟨rfl, by decide, by decide, by decide, rfl⟩

/-- C5 (amended): for store states whose seat keys are distinct and in
which every stored booking's tier is one of the three known tiers with
its seat inside that tier's fixed range — the code itself never enforces
the latter — every availability row satisfies reserved_count +
available_count = tier_capacity, its available list is the tier's range
minus the reserved seats in strictly ascending order, and no available
seat has a stored BookingRecord. -/
theorem availability_partition (b : BOOKING_STORE_BUCKET)
    (hnd : (b.BOOKING_STORE.map (fun p => p.1)).Nodup)
    (ht : ∀ p ∈ b.BOOKING_STORE, seatInTierRange p.2.tier p.1) :
    ∀ ti ∈ HandleAvailability b,
      ti.reservedCount + ti.availableList.length = ti.totalSeats ∧
      ti.availableList.Pairwise (· < ·) ∧
      ∀ s ∈ ti.availableList, GetBooking b s = Except.error "booking not found" := by
  have hGet : ∀ s, storeFind b.BOOKING_STORE s = none →
      GetBooking b s = Except.error "booking not found" := by
    intro s hs
    unfold GetBooking
    rw [hs]
  intro ti hti
  simp only [HandleAvailability, GetReservedSeats, List.mem_cons,
    List.not_mem_nil, or_false] at hti
  rcases hti with h | h | h
  · subst h
    have hfacts := tier_partition b.BOOKING_STORE TierVIP 1 30 hnd
      (by
        intro p hpm hpt
        rcases ht p hpm with ⟨-, hr⟩ | ⟨he, -⟩ | ⟨he, -⟩
        · exact hr
        · rw [hpt] at he
          exact absurd he (by decide)
        · rw [hpt] at he
          exact absurd he (by decide))
      (by
        intro p hpm hpt
        rcases ht p hpm with ⟨he, -⟩ | ⟨-, hr⟩ | ⟨-, hr⟩
        · exact absurd he hpt
        · omega
        · omega)
    exact ⟨hfacts.1, hfacts.2.1, fun s hs => hGet s (hfacts.2.2 s hs)⟩
  · subst h
    have hfacts := tier_partition b.BOOKING_STORE TierFrontRow 31 60 hnd
      (by
        intro p hpm hpt
        rcases ht p hpm with ⟨he, -⟩ | ⟨-, hr⟩ | ⟨he, -⟩
        · rw [hpt] at he
          exact absurd he (by decide)
        · exact hr
        · rw [hpt] at he
          exact absurd he (by decide))
      (by
        intro p hpm hpt
        rcases ht p hpm with ⟨-, hr⟩ | ⟨he, -⟩ | ⟨-, hr⟩
        · omega
        · exact absurd he hpt
        · omega)
    exact ⟨hfacts.1, hfacts.2.1, fun s hs => hGet s (hfacts.2.2 s hs)⟩
  · subst h
    have hfacts := tier_partition b.BOOKING_STORE TierGA 61 100 hnd
      (by
        intro p hpm hpt
        rcases ht p hpm with ⟨he, -⟩ | ⟨he, -⟩ | ⟨-, hr⟩
        · rw [hpt] at he
          exact absurd he (by decide)
        · rw [hpt] at he
          exact absurd he (by decide)
        · exact hr)
      (by
        intro p hpm hpt
        rcases ht p hpm with ⟨-, hr⟩ | ⟨-, hr⟩ | ⟨he, -⟩
        · omega
        · omega
        · exact absurd he hpt)
    exact ⟨hfacts.1, hfacts.2.1, fun s hs => hGet s (hfacts.2.2 s hs)⟩

/-- Witness for C5 (amended) at a concrete input: a store holding one VIP
booking at seat 7 (inside the VIP range); the VIP row partitions, and the
available seat 8 has no stored booking. -/
theorem availability_partition_witness :
    (GetReservedSeats (RegisterBooking NewBookingStoreBucket
        { baseOrder with tier := "VIP", seatNo := 7 }).2).VIP.length +
      (calculateAvailableSeats 1 30
        (GetReservedSeats (RegisterBooking NewBookingStoreBucket
          { baseOrder with tier := "VIP", seatNo := 7 }).2).VIP).length = 30 ∧
    GetBooking (RegisterBooking NewBookingStoreBucket
        { baseOrder with tier := "VIP", seatNo := 7 }).2 8 =
      Except.error "booking not found" := by
  have h := availability_partition
    (RegisterBooking NewBookingStoreBucket { baseOrder with tier := "VIP", seatNo := 7 }).2
    (by decide) (by decide)
  have hrow := h
    { tier := TierVIP
      price := 10000
      totalSeats := 30
      reservedCount := (GetReservedSeats (RegisterBooking NewBookingStoreBucket
        { baseOrder with tier := "VIP", seatNo := 7 }).2).VIP.length
      availableList := calculateAvailableSeats 1 30
        (GetReservedSeats (RegisterBooking NewBookingStoreBucket
          { baseOrder with tier := "VIP", seatNo := 7 }).2).VIP }
    (List.Mem.head _)
  exact ⟨hrow.1, hrow.2.2 8 (by decide)⟩

end BookingSys
